import Mathlib

/-
Shallow embedding of the PowerBI sample bar chart visual (src/src/barChart.ts).

JavaScript conventions are modelled explicitly:
  - a possibly-undefined or possibly-null value is an Option;
  - out-of-range array access `xs[i]` is `List.get? xs i`;
  - a thrown TypeError (property access on undefined) is `Except.error`;
  - template stringification of an undefined cell gives the string "undefined".

Two helper functions of the repository, `getValue` and
`getCategoricalObjectValue`, live in a file that is not part of the given
sources (objectEnumerationUtility); they are modelled from the spec where
noted.
-/

set_option autoImplicit false

namespace BarChartVisual

/-- Enumeration `twoValsEnum` from the source (unused by the settings). -/
inductive twoValsEnum where
  | above
  | under
  deriving DecidableEq, Repr

/-- Enumeration `specialValsEnum` from the source. -/
inductive specialValsEnum where
  | coffee
  | warning
  | musicalNote
  deriving DecidableEq, Repr

/-- A `Fill` object `\x7b solid: \x7b color \x7d \x7d`, flattened to its color string. -/
structure Fill where
  color : String
  deriving DecidableEq, Repr

/-- A property value stored in a host objects map. -/
inductive VObj where
  | vBool (b : Bool)
  | vNum (n : ℚ)
  | vStr (s : String)
  | vFill (f : Fill)
  | vEnum (e : specialValsEnum)
  deriving DecidableEq, Repr

/-- The host metadata objects map: (objectName, propertyName) to an optional value. -/
def DataViewObjects : Type := String → String → Option VObj

/-- A category column: truthiness of its `source` metadata, its cell display
values (already stringified, as the code only ever reads them through a
template literal), and its per-row objects map used by `colorSelector`. -/
structure DataViewCategoryColumn where
  source : Bool
  values : List String
  rowObjects : Nat → String → String → Option VObj

/-- A value column: its numeric cells and the host-supplied `maxLocal`
aggregate (possibly undefined). -/
structure DataViewValueColumn where
  values : List Int
  maxLocal : Option Int

/-- The categorical part of a data view; either array may be absent. -/
structure DataViewCategorical where
  categories : Option (List DataViewCategoryColumn)
  values : Option (List DataViewValueColumn)

/-- Data view metadata; only its objects map is read by the code. -/
structure DataViewMetadata where
  objects : DataViewObjects

/-- One data view. -/
structure DataView where
  categorical : Option DataViewCategorical
  metadata : DataViewMetadata

/-- The update options; the `dataViews` array itself may be absent. -/
structure VisualUpdateOptions where
  dataViews : Option (List DataView)

/-- The color palette: high-contrast flag, foreground/background values, and
the deterministic per-key color function. -/
structure Palette where
  isHighContrast : Bool
  foreground : String
  background : String
  getColor : String → String

/-- The visual host, parametrised by the opaque selection-id type. The
function models `createSelectionIdBuilder().withCategory(category, i).createSelectionId()`. -/
structure IVisualHost (σ : Type) where
  colorPalette : Palette
  mkSelectionId : DataViewCategoryColumn → Nat → σ

/-- One bar-chart data point (interface `BarChartDataPoint`); `value` is the
raw cell and may be undefined, `strokeColor` may be null. -/
structure BarChartDataPoint (σ : Type) where
  value : Option Int
  category : String
  color : String
  strokeColor : Option String
  strokeWidth : Nat
  selectionId : σ

/-- Settings section `enableAxis`. -/
structure EnableAxisSettings where
  showAxis : Bool
  fill : String
  deriving DecidableEq, Repr

/-- Settings section `generalView`; `helpLinkColor` may be null. -/
structure GeneralViewSettings where
  opacity : ℚ
  showBugBashData : Bool
  showHelpLink : Bool
  helpLinkColor : Option String
  specialEnumeration : specialValsEnum
  deriving DecidableEq, Repr

/-- Settings section `testAnalyticsProperty`; `helpLinkColor` may be null. -/
structure TestAnalyticsPropertySettings where
  showSection : Bool
  displayName : String
  opacity : ℚ
  showHelpLink : Bool
  helpLinkColor : Option String
  specialEnumeration : specialValsEnum
  deriving DecidableEq, Repr

/-- Settings shape shared by the two `CardWithManyProperties` sections. -/
structure CardWithManyPropertiesSettings where
  showSection : Bool
  displayName : String
  unboundIntegerProperty : ℚ
  boundIntegerProperty : ℚ
  unboundNumericProperty : ℚ
  boundNumericProperty : ℚ
  booleanProperty : Bool
  textProperty : String
  specialEnumeration : specialValsEnum
  colorProperty : String
  nullableColorProperty : String
  formattingLableDisplayUnitsProperty : ℚ
  formattingAlignmentProperty : String
  formattingFontSizeProperty : ℚ
  deriving DecidableEq, Repr

/-- Interface `BarChartSettings`. -/
structure BarChartSettings where
  enableAxis : EnableAxisSettings
  generalView : GeneralViewSettings
  testAnalyticsProperty : TestAnalyticsPropertySettings
  CardWithManyPropertiesAnalytics : CardWithManyPropertiesSettings
  CardWithManyPropertiesFormatting : CardWithManyPropertiesSettings
  deriving DecidableEq, Repr

/-- Interface `BarChartViewModel`; `dataMax` may be undefined (it is copied
from `maxLocal` through a type-level cast), and `settings` is `none` for the
degenerate branch, where the code casts an empty object literal. -/
structure BarChartViewModel (σ : Type) where
  dataPoints : List (BarChartDataPoint σ)
  dataMax : Option Int
  settings : Option BarChartSettings

/-- The `defaultSettings` literal of `visualTransform` (barChart.ts lines 122-174). -/
def defaultSettings : BarChartSettings :=
  { enableAxis :=
      { showAxis := false
        fill := "#000000" }
    generalView :=
      { opacity := 100
        showBugBashData := false
        showHelpLink := false
        helpLinkColor := some "#80B0E0"
        specialEnumeration := specialValsEnum.coffee }
    testAnalyticsProperty :=
      { showSection := false
        displayName := "Analytics Instance"
        opacity := 100
        showHelpLink := false
        helpLinkColor := some "#80B0E0"
        specialEnumeration := specialValsEnum.coffee }
    CardWithManyPropertiesAnalytics :=
      { showSection := false
        displayName := "Analytics Instance"
        unboundIntegerProperty := 10
        boundIntegerProperty := 20
        unboundNumericProperty := 10.5
        boundNumericProperty := 20.5
        booleanProperty := false
        textProperty := "What is your name?"
        specialEnumeration := specialValsEnum.coffee
        colorProperty := "#8800FF"
        nullableColorProperty := "#00FF88"
        formattingLableDisplayUnitsProperty := 0
        formattingAlignmentProperty := "right"
        formattingFontSizeProperty := 10 }
    CardWithManyPropertiesFormatting :=
      { showSection := false
        displayName := "Formatting Instance"
        unboundIntegerProperty := 10
        boundIntegerProperty := 20
        unboundNumericProperty := 10.5
        boundNumericProperty := 20.5
        booleanProperty := false
        textProperty := "What is your quest?"
        specialEnumeration := specialValsEnum.coffee
        colorProperty := "#8800FF"
        nullableColorProperty := "#00FF88"
        formattingLableDisplayUnitsProperty := 0
        formattingAlignmentProperty := "right"
        formattingFontSizeProperty := 10 } }

/-- The empty view model initialised at the top of `visualTransform`
(dataPoints `[]`, dataMax `0`, settings an empty cast object). -/
def emptyViewModel (σ : Type) : BarChartViewModel σ :=
  { dataPoints := []
    dataMax := some 0
    settings := none }

/-- Modelled from the spec: helper `getValue` (file objectEnumerationUtility,
not among the given sources) returns the host-provided override if present
and well-typed, else the compiled-in default. Boolean-typed fields. -/
def getValueBool (objects : DataViewObjects) (objectName propertyName : String)
    (defaultValue : Bool) : Bool :=
  match objects objectName propertyName with
  | some (VObj.vBool b) => b
  | _ => defaultValue

/-- Modelled from the spec: `getValue` for number-typed fields. -/
def getValueNum (objects : DataViewObjects) (objectName propertyName : String)
    (defaultValue : ℚ) : ℚ :=
  match objects objectName propertyName with
  | some (VObj.vNum n) => n
  | _ => defaultValue

/-- Modelled from the spec: `getValue` for string-typed fields. -/
def getValueStr (objects : DataViewObjects) (objectName propertyName : String)
    (defaultValue : String) : String :=
  match objects objectName propertyName with
  | some (VObj.vStr s) => s
  | _ => defaultValue

/-- Modelled from the spec: `getValue` for enum-typed fields. -/
def getValueEnum (objects : DataViewObjects) (objectName propertyName : String)
    (defaultValue : specialValsEnum) : specialValsEnum :=
  match objects objectName propertyName with
  | some (VObj.vEnum e) => e
  | _ => defaultValue

/-- Modelled from the spec: `getValue` for `Fill`-typed fields. -/
def getValueFill (objects : DataViewObjects) (objectName propertyName : String)
    (defaultValue : Fill) : Fill :=
  match objects objectName propertyName with
  | some (VObj.vFill f) => f
  | _ => defaultValue

/-- Modelled from the spec: helper `getCategoricalObjectValue` (file
objectEnumerationUtility, not among the given sources) is the per-row
override lookup, keyed by category row: it returns the row-level
host-provided override if present and well-typed, else the default. -/
def getCategoricalObjectValue (category : DataViewCategoryColumn) (index : Nat)
    (objectName propertyName : String) (defaultValue : Fill) : Fill :=
  match category.rowObjects index objectName propertyName with
  | some (VObj.vFill f) => f
  | _ => defaultValue

/-- JavaScript template stringification of a category cell; an out-of-range
(undefined) cell prints as "undefined". -/
def categoryDisplay (cell : Option String) : String :=
  match cell with
  | some s => s
  | none => "undefined"

/-- Function `getColumnColorByIndex` (barChart.ts lines 285-307). -/
def getColumnColorByIndex (category : DataViewCategoryColumn) (index : Nat)
    (colorPalette : Palette) : String :=
  if colorPalette.isHighContrast then
    colorPalette.background
  else
    let defaultColor : Fill :=
      { color := colorPalette.getColor (categoryDisplay (category.values.get? index)) }
    (getCategoricalObjectValue category index "colorSelector" "fill" defaultColor).color

/-- Function `getColumnStrokeColor` (barChart.ts lines 309-313); returns null
when high-contrast mode is off. -/
def getColumnStrokeColor (colorPalette : Palette) : Option String :=
  if colorPalette.isHighContrast then some colorPalette.foreground else none

/-- Function `getColumnStrokeWidth` (barChart.ts lines 315-319). -/
def getColumnStrokeWidth (isHighContrast : Bool) : Nat :=
  if isHighContrast then 2 else 0

/-- Function `getAxisTextFillColor` (barChart.ts lines 321-340). -/
def getAxisTextFillColor (objects : DataViewObjects) (colorPalette : Palette)
    (defaultColor : String) : String :=
  if colorPalette.isHighContrast then
    colorPalette.foreground
  else
    (getValueFill objects "enableAxis" "fill" { color := defaultColor }).color

/-- The `barChartSettings` literal built inside `visualTransform`
(barChart.ts lines 203-255); `strokeColor` is the value computed at line 201
and assigned to both `helpLinkColor` fields. -/
def resolveSettings (objects : DataViewObjects) (colorPalette : Palette)
    (strokeColor : Option String) : BarChartSettings :=
  { enableAxis :=
      { showAxis := getValueBool objects "enableAxis" "show" defaultSettings.enableAxis.showAxis
        fill := getAxisTextFillColor objects colorPalette defaultSettings.enableAxis.fill }
    generalView :=
      { opacity := getValueNum objects "generalView" "opacity" defaultSettings.generalView.opacity
        showBugBashData := getValueBool objects "generalView" "showBugBashData" defaultSettings.generalView.showBugBashData
        showHelpLink := getValueBool objects "generalView" "showHelpLink" defaultSettings.generalView.showHelpLink
        helpLinkColor := strokeColor
        specialEnumeration := getValueEnum objects "generalView" "specialEnumeration" defaultSettings.generalView.specialEnumeration }
    testAnalyticsProperty :=
      { showSection := getValueBool objects "testAnalyticsProperty" "show" defaultSettings.testAnalyticsProperty.showSection
        displayName := getValueStr objects "testAnalyticsProperty" "displayName" defaultSettings.testAnalyticsProperty.displayName
        opacity := getValueNum objects "testAnalyticsProperty" "opacity" defaultSettings.testAnalyticsProperty.opacity
        showHelpLink := getValueBool objects "testAnalyticsProperty" "showHelpLink" defaultSettings.testAnalyticsProperty.showHelpLink
        helpLinkColor := strokeColor
        specialEnumeration := getValueEnum objects "testAnalyticsProperty" "specialEnumeration" defaultSettings.testAnalyticsProperty.specialEnumeration }
    CardWithManyPropertiesAnalytics :=
      { showSection := getValueBool objects "CardWithManyPropertiesAnalytics" "show" defaultSettings.CardWithManyPropertiesAnalytics.showSection
        displayName := getValueStr objects "CardWithManyPropertiesAnalytics" "displayName" defaultSettings.CardWithManyPropertiesAnalytics.displayName
        unboundIntegerProperty := getValueNum objects "CardWithManyPropertiesAnalytics" "unboundIntegerProperty" defaultSettings.CardWithManyPropertiesAnalytics.unboundIntegerProperty
        boundIntegerProperty := getValueNum objects "CardWithManyPropertiesAnalytics" "boundIntegerProperty" defaultSettings.CardWithManyPropertiesAnalytics.boundIntegerProperty
        unboundNumericProperty := getValueNum objects "CardWithManyPropertiesAnalytics" "unboundNumericProperty" defaultSettings.CardWithManyPropertiesAnalytics.unboundNumericProperty
        boundNumericProperty := getValueNum objects "CardWithManyPropertiesAnalytics" "boundNumericProperty" defaultSettings.CardWithManyPropertiesAnalytics.boundNumericProperty
        booleanProperty := getValueBool objects "CardWithManyPropertiesAnalytics" "booleanProperty" defaultSettings.CardWithManyPropertiesAnalytics.booleanProperty
        textProperty := getValueStr objects "CardWithManyPropertiesAnalytics" "textProperty" defaultSettings.CardWithManyPropertiesAnalytics.textProperty
        specialEnumeration := getValueEnum objects "CardWithManyPropertiesAnalytics" "specialEnumeration" defaultSettings.testAnalyticsProperty.specialEnumeration
        colorProperty := getValueStr objects "CardWithManyPropertiesAnalytics" "colorProperty" defaultSettings.CardWithManyPropertiesAnalytics.colorProperty
        nullableColorProperty := getValueStr objects "CardWithManyPropertiesAnalytics" "nullableColorProperty" defaultSettings.CardWithManyPropertiesAnalytics.nullableColorProperty
        formattingLableDisplayUnitsProperty := getValueNum objects "CardWithManyPropertiesAnalytics" "formattingLableDisplayUnitsProperty" defaultSettings.CardWithManyPropertiesAnalytics.formattingLableDisplayUnitsProperty
        formattingAlignmentProperty := getValueStr objects "CardWithManyPropertiesAnalytics" "formattingAlignmentProperty" defaultSettings.CardWithManyPropertiesAnalytics.formattingAlignmentProperty
        formattingFontSizeProperty := getValueNum objects "CardWithManyPropertiesAnalytics" "formattingFontSizeProperty" defaultSettings.CardWithManyPropertiesAnalytics.formattingFontSizeProperty }
    CardWithManyPropertiesFormatting :=
      { showSection := getValueBool objects "CardWithManyPropertiesFormatting" "show" defaultSettings.CardWithManyPropertiesFormatting.showSection
        displayName := getValueStr objects "CardWithManyPropertiesFormatting" "displayName" defaultSettings.CardWithManyPropertiesFormatting.displayName
        unboundIntegerProperty := getValueNum objects "CardWithManyPropertiesFormatting" "unboundIntegerProperty" defaultSettings.CardWithManyPropertiesFormatting.unboundIntegerProperty
        boundIntegerProperty := getValueNum objects "CardWithManyPropertiesFormatting" "boundIntegerProperty" defaultSettings.CardWithManyPropertiesFormatting.boundIntegerProperty
        unboundNumericProperty := getValueNum objects "CardWithManyPropertiesFormatting" "unboundNumericProperty" defaultSettings.CardWithManyPropertiesFormatting.unboundNumericProperty
        boundNumericProperty := getValueNum objects "CardWithManyPropertiesFormatting" "boundNumericProperty" defaultSettings.CardWithManyPropertiesFormatting.boundNumericProperty
        booleanProperty := getValueBool objects "CardWithManyPropertiesFormatting" "booleanProperty" defaultSettings.CardWithManyPropertiesFormatting.booleanProperty
        textProperty := getValueStr objects "CardWithManyPropertiesFormatting" "textProperty" defaultSettings.CardWithManyPropertiesFormatting.textProperty
        specialEnumeration := getValueEnum objects "CardWithManyPropertiesFormatting" "specialEnumeration" defaultSettings.testAnalyticsProperty.specialEnumeration
        colorProperty := getValueStr objects "CardWithManyPropertiesFormatting" "colorProperty" defaultSettings.CardWithManyPropertiesFormatting.colorProperty
        nullableColorProperty := getValueStr objects "CardWithManyPropertiesFormatting" "nullableColorProperty" defaultSettings.CardWithManyPropertiesFormatting.nullableColorProperty
        formattingLableDisplayUnitsProperty := getValueNum objects "CardWithManyPropertiesFormatting" "formattingLableDisplayUnitsProperty" defaultSettings.CardWithManyPropertiesFormatting.formattingLableDisplayUnitsProperty
        formattingAlignmentProperty := getValueStr objects "CardWithManyPropertiesFormatting" "formattingAlignmentProperty" defaultSettings.CardWithManyPropertiesFormatting.formattingAlignmentProperty
        formattingFontSizeProperty := getValueNum objects "CardWithManyPropertiesFormatting" "formattingFontSizeProperty" defaultSettings.CardWithManyPropertiesFormatting.formattingFontSizeProperty } }

/-- Function `visualTransform` (barChart.ts lines 120-283). The guard at
lines 181-189 is a single short-circuit disjunction; note that it reads
`categories[0].source`, which throws when the categories array is empty, and
that it never checks that the values array is nonempty, so `values[0]` may be
undefined and `dataValue.values.length` at line 259 then throws. -/
def visualTransform (σ : Type) (options : VisualUpdateOptions)
    (host : IVisualHost σ) : Except String (BarChartViewModel σ) :=
  match options.dataViews with
  | none => Except.ok (emptyViewModel σ)
  | some dvs =>
    match dvs.get? 0 with
    | none => Except.ok (emptyViewModel σ)
    | some dv0 =>
      match dv0.categorical with
      | none => Except.ok (emptyViewModel σ)
      | some categorical =>
        match categorical.categories with
        | none => Except.ok (emptyViewModel σ)
        | some cats =>
          match cats.get? 0 with
          | none => Except.error "TypeError: reading source of undefined"
          | some cat0 =>
            if cat0.source then
              match categorical.values with
              | none => Except.ok (emptyViewModel σ)
              | some vals =>
                match vals.get? 0 with
                | none => Except.error "TypeError: reading values of undefined"
                | some dataValue =>
                  let colorPalette := host.colorPalette
                  let objects := dv0.metadata.objects
                  let strokeColor := getColumnStrokeColor colorPalette
                  let barChartSettings := resolveSettings objects colorPalette strokeColor
                  let strokeWidth := getColumnStrokeWidth colorPalette.isHighContrast
                  let len := max cat0.values.length dataValue.values.length
                  let barChartDataPoints : List (BarChartDataPoint σ) :=
                    (List.range len).map fun i =>
                      { color := getColumnColorByIndex cat0 i colorPalette
                        strokeColor := strokeColor
                        strokeWidth := strokeWidth
                        selectionId := host.mkSelectionId cat0 i
                        value := dataValue.values.get? i
                        category := categoryDisplay (cat0.values.get? i) }
                  Except.ok
                    { dataPoints := barChartDataPoints
                      dataMax := dataValue.maxLocal
                      settings := some barChartSettings }
            else
              Except.ok (emptyViewModel σ)

/-- The margins object inside `BarChart.Config`. -/
structure Margins where
  top : ℚ
  right : ℚ
  bottom : ℚ
  left : ℚ
  deriving DecidableEq, Repr

/-- Shape of the static `BarChart.Config` object. -/
structure ConfigShape where
  xScalePadding : ℚ
  solidOpacity : ℚ
  transparentOpacity : ℚ
  margins : Margins
  xAxisFontMultiplier : ℚ
  deriving DecidableEq, Repr

/-- The static `BarChart.Config` literal (barChart.ts lines 361-372). -/
def Config : ConfigShape :=
  { xScalePadding := 0.1
    solidOpacity := 1
    transparentOpacity := 0.4
    margins := { top := 0, right := 0, bottom := 25, left := 30 }
    xAxisFontMultiplier := 0.04 }

/-- Inline fill-opacity and stroke-opacity styles of one rendered bar; `none`
models the absence of an inline override (a style set to null). -/
structure BarStyle where
  fillOpacity : Option ℚ
  strokeOpacity : Option ℚ
  deriving DecidableEq, Repr

/-- Method `BarChart.isSelectionIdInArray` (barChart.ts lines 592-600); the
host-defined containment test `currentSelectionId.includes(selectionId)` is
the parameter `includes`. -/
def isSelectionIdInArray (σ : Type) (includes : σ → σ → Bool)
    (selectionIds : Option (List σ)) (selectionId : Option σ) : Bool :=
  match selectionIds, selectionId with
  | some ids, some sid => ids.any fun currentSelectionId => includes currentSelectionId sid
  | _, _ => false

/-- Method `BarChart.syncSelectionState` (barChart.ts lines 559-590). The d3
selection is modelled as the list of bound data points paired with each bar's
current inline opacity styles; the method returns the styles after it runs
(the input unchanged when it returns early on a null selection or null id
array). -/
def syncSelectionState (σ : Type) (includes : σ → σ → Bool)
    (selection : Option (List (BarChartDataPoint σ × BarStyle)))
    (selectionIds : Option (List σ)) :
    Option (List (BarChartDataPoint σ × BarStyle)) :=
  match selection, selectionIds with
  | none, _ => selection
  | _, none => selection
  | some bars, some ids =>
    if ids.length = 0 then
      some (bars.map fun b => (b.1, { fillOpacity := none, strokeOpacity := none }))
    else
      some (bars.map fun b =>
        let isSelected := isSelectionIdInArray σ includes (some ids) (some b.1.selectionId)
        let opacity := if isSelected then Config.solidOpacity else Config.transparentOpacity
        (b.1, { fillOpacity := some opacity, strokeOpacity := some opacity }))

/-- An objects map with no host overrides at all. -/
def emptyObjects : DataViewObjects := fun _ _ => none

/-- A per-row objects map with no overrides. -/
def noRowObjects : Nat → String → String → Option VObj := fun _ _ _ => none

/-- Concrete high-contrast palette for witnesses. -/
def paletteHC : Palette :=
  { isHighContrast := true
    foreground := "#FFFF00"
    background := "#000000"
    getColor := fun _ => "#C0C0C0" }

/-- Concrete ordinary (non high-contrast) palette for witnesses. -/
def paletteStd : Palette :=
  { isHighContrast := false
    foreground := "#222222"
    background := "#FFFFFF"
    getColor := fun s => String.append s "-color" }

/-- Concrete host over `Nat` selection ids and the high-contrast palette. -/
def hostHC : IVisualHost Nat :=
  { colorPalette := paletteHC
    mkSelectionId := fun _ i => i }

/-- Concrete host over `Nat` selection ids and the ordinary palette. -/
def hostStd : IVisualHost Nat :=
  { colorPalette := paletteStd
    mkSelectionId := fun _ i => i }

/-- Concrete two-row category column with no per-row overrides. -/
def catAB : DataViewCategoryColumn :=
  { source := true
    values := ["A", "B"]
    rowObjects := noRowObjects }

/-- Concrete value column whose host-supplied `maxLocal` aggregate (99)
disagrees with the actual largest cell (2). -/
def valCol12 : DataViewValueColumn :=
  { values := [1, 2]
    maxLocal := some 99 }

/-- Metadata with no host overrides. -/
def metaEmpty : DataViewMetadata := { objects := emptyObjects }

/-- Builds update options carrying a single data view with empty metadata. -/
def mkOptions (categories : Option (List DataViewCategoryColumn))
    (values : Option (List DataViewValueColumn)) : VisualUpdateOptions :=
  { dataViews := some [{ categorical := some { categories := categories, values := values }
                         metadata := metaEmpty }] }

/-- Concrete one-cell value column, shorter than `catAB`. -/
def valCol5 : DataViewValueColumn :=
  { values := [5]
    maxLocal := some 5 }

/-- Concrete data point with selection token 0, bound to category "A". -/
def dpT : BarChartDataPoint Nat :=
  { value := some 1
    category := "A"
    color := "#123456"
    strokeColor := none
    strokeWidth := 0
    selectionId := 0 }

/-- Concrete data point with selection token 1, bound to category "B". -/
def dpU : BarChartDataPoint Nat :=
  { value := some 2
    category := "B"
    color := "#654321"
    strokeColor := none
    strokeWidth := 0
    selectionId := 1 }

/-- Concrete rendered bars for the selection-sync witnesses. -/
def barsW : List (BarChartDataPoint Nat × BarStyle) :=
  [(dpT, { fillOpacity := none, strokeOpacity := none }),
   (dpU, { fillOpacity := none, strokeOpacity := none })]

/-- C6: for every data point index, the resolved bar color is the palette
neutral background if high-contrast mode is on; else the per-row
colorSelector fill override for that category if present; else the palette
deterministic color keyed by the stringified display value of that category
cell. -/
theorem getColumnColorByIndex_resolution (category : DataViewCategoryColumn)
    (index : Nat) (colorPalette : Palette) :
    (colorPalette.isHighContrast = true →
      getColumnColorByIndex category index colorPalette = colorPalette.background)
    ∧ (colorPalette.isHighContrast = false →
        ∀ f : Fill,
          category.rowObjects index "colorSelector" "fill" = some (VObj.vFill f) →
          getColumnColorByIndex category index colorPalette = f.color)
    ∧ (colorPalette.isHighContrast = false →
        category.rowObjects index "colorSelector" "fill" = none →
        getColumnColorByIndex category index colorPalette =
          colorPalette.getColor (categoryDisplay (category.values.get? index))) := by
  refine ⟨fun h => ?_, fun h f hf => ?_, fun h hnone => ?_⟩
  · simp [getColumnColorByIndex, h]
  · simp [getColumnColorByIndex, h, getCategoricalObjectValue, hf]
  · simp [getColumnColorByIndex, h, getCategoricalObjectValue, hnone]

/-- C6 witness: the resolution theorem evaluated at concrete inputs, once in
high-contrast mode and once with no override in ordinary mode. -/
theorem getColumnColorByIndex_resolution_witness :
    getColumnColorByIndex catAB 0 paletteHC = "#000000"
    ∧ getColumnColorByIndex catAB 0 paletteStd = "A-color" :=
  ⟨(getColumnColorByIndex_resolution catAB 0 paletteHC).1 rfl,
   (getColumnColorByIndex_resolution catAB 0 paletteStd).2.2 rfl rfl⟩

/-- C7: after syncSelectionState runs with a nonempty selection set, a bar
whose token is contained in the set by the host containment test has
fill-opacity and stroke-opacity 1 (the solid constant), and a bar whose token
is not contained has fill-opacity and stroke-opacity 0.4 (the partial
constant). -/
theorem syncSelectionState_nonempty_opacity (σ : Type) (includes : σ → σ → Bool)
    (bars : List (BarChartDataPoint σ × BarStyle)) (ids : List σ)
    (hne : ids ≠ []) :
    Config.solidOpacity = 1 ∧ Config.transparentOpacity = 0.4 ∧
    ∃ out, syncSelectionState σ includes (some bars) (some ids) = some out ∧
      out.length = bars.length ∧
      ∀ i b, bars.get? i = some b →
        out.get? i = some (b.1,
          if ids.any (fun t => includes t b.1.selectionId) then
            ({ fillOpacity := some 1, strokeOpacity := some 1 } : BarStyle)
          else
            { fillOpacity := some 0.4, strokeOpacity := some 0.4 }) := by
  have h0 : ¬ ids.length = 0 := fun h => hne (List.length_eq_zero.mp h)
  refine ⟨rfl, rfl, ?_⟩
  simp only [syncSelectionState, if_neg h0]
  refine ⟨_, rfl, by simp, ?_⟩
  intro i b hb
  simp only [List.get?_map, hb, Option.map_some']
  by_cases hc : (ids.any fun t => includes t b.1.selectionId) = true
  · simp [isSelectionIdInArray, hc, Config]
  · simp [isSelectionIdInArray, hc, Config]

/-- C7 witness: two bars with tokens 0 and 1, selection set containing only
token 0, containment by equality of Nat tokens. -/
theorem syncSelectionState_nonempty_opacity_witness :
    Config.solidOpacity = 1 ∧ Config.transparentOpacity = 0.4 ∧
    ∃ out, syncSelectionState Nat (fun a b => a == b) (some barsW) (some [0]) = some out ∧
      out.length = barsW.length ∧
      ∀ i b, barsW.get? i = some b →
        out.get? i = some (b.1,
          if [0].any (fun t => t == b.1.selectionId) then
            ({ fillOpacity := some 1, strokeOpacity := some 1 } : BarStyle)
          else
            { fillOpacity := some 0.4, strokeOpacity := some 0.4 }) :=
  syncSelectionState_nonempty_opacity Nat (fun a b => a == b) barsW [0] (by simp)

/-- C8: called with an empty (zero-length) selection-id array,
syncSelectionState clears every per-bar fill-opacity and stroke-opacity
inline override, leaving no inline opacity style. -/
theorem syncSelectionState_empty_clears (σ : Type) (includes : σ → σ → Bool)
    (bars : List (BarChartDataPoint σ × BarStyle)) :
    syncSelectionState σ includes (some bars) (some []) =
      some (bars.map fun b => (b.1, { fillOpacity := none, strokeOpacity := none })) := by
  simp [syncSelectionState]

/-- C10: called with a null selection or a null selection-id array,
syncSelectionState returns immediately and leaves every bar style
unchanged. -/
theorem syncSelectionState_null_noop (σ : Type) (includes : σ → σ → Bool)
    (selection : Option (List (BarChartDataPoint σ × BarStyle)))
    (ids : Option (List σ)) :
    syncSelectionState σ includes none ids = none ∧
    syncSelectionState σ includes selection none = selection := by
  constructor
  · cases ids <;> rfl
  · cases selection <;> rfl

/-- Reduction helper: the success branch of `visualTransform`, for any input
that passes the guard with a truthy first-category source and a nonempty
values array. -/
theorem visualTransform_ok (σ : Type) (host : IVisualHost σ)
    (cat0 : DataViewCategoryColumn) (crest : List DataViewCategoryColumn)
    (v0 : DataViewValueColumn) (vrest : List DataViewValueColumn)
    (md : DataViewMetadata) (dvrest : List DataView)
    (hsrc : cat0.source = true) :
    visualTransform σ
        { dataViews := some
            ({ categorical := some { categories := some (cat0 :: crest), values := some (v0 :: vrest) }
               metadata := md } :: dvrest) } host
      = Except.ok
          { dataPoints :=
              (List.range (max cat0.values.length v0.values.length)).map fun i =>
                { color := getColumnColorByIndex cat0 i host.colorPalette
                  strokeColor := getColumnStrokeColor host.colorPalette
                  strokeWidth := getColumnStrokeWidth host.colorPalette.isHighContrast
                  selectionId := host.mkSelectionId cat0 i
                  value := v0.values.get? i
                  category := categoryDisplay (cat0.values.get? i) }
            dataMax := v0.maxLocal
            settings := some (resolveSettings md.objects host.colorPalette
              (getColumnStrokeColor host.colorPalette)) } := by
  simp [visualTransform, hsrc]

/-- C1 counterexample: with a nonempty categories array (truthy source) and
an empty values array, the degenerate-input guard at lines 181-189 passes,
yet visualTransform throws at line 259 (reading `values.length` of the
undefined `values[0]`) instead of building a view model with
max(2, 0) data points. -/
theorem visualTransform_guardPass_emptyValues_throws :
    visualTransform Nat (mkOptions (some [catAB]) (some [])) hostStd =
      Except.error "TypeError: reading values of undefined" := rfl

/-- C1 (amended): for every input where the data view passes the
degenerate-input guard and the values array is nonempty, visualTransform
builds a view model with exactly max(len(category column), len(value column))
data points, in column (input) order: the point at index i carries the value
cell at index i (undefined once the value column is exhausted) and the
display string of the category cell at index i. -/
theorem visualTransform_dataPoints_length_max (σ : Type) (host : IVisualHost σ)
    (cat0 : DataViewCategoryColumn) (crest : List DataViewCategoryColumn)
    (v0 : DataViewValueColumn) (vrest : List DataViewValueColumn)
    (md : DataViewMetadata) (dvrest : List DataView)
    (hsrc : cat0.source = true) :
    ∃ vm, visualTransform σ
        { dataViews := some
            ({ categorical := some { categories := some (cat0 :: crest), values := some (v0 :: vrest) }
               metadata := md } :: dvrest) } host
      = Except.ok vm ∧
      vm.dataPoints.length = max cat0.values.length v0.values.length ∧
      (∀ i, i < max cat0.values.length v0.values.length →
        ∃ p, vm.dataPoints.get? i = some p ∧
          p.value = v0.values.get? i ∧
          p.category = categoryDisplay (cat0.values.get? i)) ∧
      (∀ i p, vm.dataPoints.get? i = some p → v0.values.length ≤ i → p.value = none) := by
  refine ⟨_, visualTransform_ok σ host cat0 crest v0 vrest md dvrest hsrc, ?_, ?_, ?_⟩
  · simp
  · intro i hi
    exact ⟨_, by rw [List.get?_map, List.get?_range hi, Option.map_some'], rfl, rfl⟩
  · intro i p hp hle
    by_cases hi : i < max cat0.values.length v0.values.length
    · rw [List.get?_map, List.get?_range hi, Option.map_some'] at hp
      obtain rfl : _ = p := Option.some.inj hp
      exact List.get?_eq_none.mpr hle
    · rw [List.get?_map, List.get?_eq_none.mpr (by simpa using Nat.le_of_not_lt hi)] at hp
      exact absurd hp (by simp)

/-- C1 witness: category column of length 2, value column of length 1; the
second point exists and its value is undefined. -/
theorem visualTransform_dataPoints_length_max_witness :
    ∃ vm, visualTransform Nat
        { dataViews := some
            ({ categorical := some { categories := some (catAB :: []), values := some (valCol5 :: []) }
               metadata := metaEmpty } :: []) } hostStd
      = Except.ok vm ∧
      vm.dataPoints.length = max catAB.values.length valCol5.values.length ∧
      (∀ i, i < max catAB.values.length valCol5.values.length →
        ∃ p, vm.dataPoints.get? i = some p ∧
          p.value = valCol5.values.get? i ∧
          p.category = categoryDisplay (catAB.values.get? i)) ∧
      (∀ i p, vm.dataPoints.get? i = some p → valCol5.values.length ≤ i → p.value = none) :=
  visualTransform_dataPoints_length_max Nat hostStd catAB [] valCol5 [] metaEmpty [] rfl

/-- C5 counterexample: with an empty categories array the guard itself reads
`categories[0].source`, which is a property access on undefined, so
visualTransform throws a TypeError instead of returning the empty view
model. -/
theorem visualTransform_emptyCategories_throws :
    visualTransform Nat (mkOptions (some []) (some [valCol12])) hostStd =
      Except.error "TypeError: reading source of undefined" := rfl

/-- C5 (amended): for every absent-input case actually handled by the guard
(no dataViews array, no first data view, no categorical, no categories array,
falsy first-category source, or no values array), visualTransform raises no
error and returns the empty view model with zero data points and dataMax 0;
an empty categories array, by contrast, throws. -/
theorem visualTransform_degenerate_empty_viewModel (σ : Type) (host : IVisualHost σ)
    (options : VisualUpdateOptions)
    (h : options.dataViews = none
      ∨ (∃ dvs, options.dataViews = some dvs ∧ dvs[0]? = none)
      ∨ (∃ dvs dv0, options.dataViews = some dvs ∧ dvs[0]? = some dv0 ∧
          dv0.categorical = none)
      ∨ (∃ dvs dv0 c, options.dataViews = some dvs ∧ dvs[0]? = some dv0 ∧
          dv0.categorical = some c ∧ c.categories = none)
      ∨ (∃ dvs dv0 c cats cat0, options.dataViews = some dvs ∧ dvs[0]? = some dv0 ∧
          dv0.categorical = some c ∧ c.categories = some cats ∧
          cats[0]? = some cat0 ∧ cat0.source = false)
      ∨ (∃ dvs dv0 c cats cat0, options.dataViews = some dvs ∧ dvs[0]? = some dv0 ∧
          dv0.categorical = some c ∧ c.categories = some cats ∧
          cats[0]? = some cat0 ∧ cat0.source = true ∧ c.values = none)) :
    visualTransform σ options host = Except.ok (emptyViewModel σ) ∧
    (emptyViewModel σ).dataPoints.length = 0 ∧ (emptyViewModel σ).dataMax = some 0 := by
  refine ⟨?_, rfl, rfl⟩
  rcases h with h | ⟨dvs, h1, h2⟩ | ⟨dvs, dv0, h1, h2, h3⟩ | ⟨dvs, dv0, c, h1, h2, h3, h4⟩ |
    ⟨dvs, dv0, c, cats, cat0, h1, h2, h3, h4, h5, h6⟩ |
    ⟨dvs, dv0, c, cats, cat0, h1, h2, h3, h4, h5, h6, h7⟩ <;>
  simp [visualTransform, *]

/-- C5 witness: the degenerate theorem applied to an absent dataViews
array. -/
theorem visualTransform_degenerate_empty_viewModel_witness :
    visualTransform Nat { dataViews := none } hostStd = Except.ok (emptyViewModel Nat) ∧
    (emptyViewModel Nat).dataPoints.length = 0 ∧ (emptyViewModel Nat).dataMax = some 0 :=
  visualTransform_degenerate_empty_viewModel Nat hostStd { dataViews := none } (Or.inl rfl)

/-- C9: visualTransform reads only the first data view, its first category
column and its first value column; additional data views, category columns or
value columns have no effect on the resulting view model. -/
theorem visualTransform_reads_only_first_columns (σ : Type) (host : IVisualHost σ)
    (cat0 : DataViewCategoryColumn) (crest crest2 : List DataViewCategoryColumn)
    (v0 : DataViewValueColumn) (vrest vrest2 : List DataViewValueColumn)
    (md : DataViewMetadata) (dvrest dvrest2 : List DataView) :
    visualTransform σ
        { dataViews := some
            ({ categorical := some { categories := some (cat0 :: crest), values := some (v0 :: vrest) }
               metadata := md } :: dvrest) } host
      = visualTransform σ
        { dataViews := some
            ({ categorical := some { categories := some (cat0 :: crest2), values := some (v0 :: vrest2) }
               metadata := md } :: dvrest2) } host := rfl

/-- C2: when the palette high-contrast flag is set, visualTransform gives
every data point stroke width 2 (a fixed non-zero value), bar fill equal to
the palette background color, stroke equal to the palette foreground color,
and resolves the axis fill and the help-link color to the palette foreground
color, regardless of any override in the objects map or in the per-category
colorSelector. -/
theorem visualTransform_highContrast_forces_palette (σ : Type) (host : IVisualHost σ)
    (cat0 : DataViewCategoryColumn) (crest : List DataViewCategoryColumn)
    (v0 : DataViewValueColumn) (vrest : List DataViewValueColumn)
    (md : DataViewMetadata) (dvrest : List DataView)
    (hsrc : cat0.source = true) (hhc : host.colorPalette.isHighContrast = true) :
    ∃ vm, visualTransform σ
        { dataViews := some
            ({ categorical := some { categories := some (cat0 :: crest), values := some (v0 :: vrest) }
               metadata := md } :: dvrest) } host
      = Except.ok vm ∧
      (∀ p ∈ vm.dataPoints,
        p.strokeWidth = 2 ∧
        p.color = host.colorPalette.background ∧
        p.strokeColor = some host.colorPalette.foreground) ∧
      (∃ s, vm.settings = some s ∧
        s.enableAxis.fill = host.colorPalette.foreground ∧
        s.generalView.helpLinkColor = some host.colorPalette.foreground) := by
  refine ⟨_, visualTransform_ok σ host cat0 crest v0 vrest md dvrest hsrc, ?_, ?_⟩
  · intro p hp
    obtain ⟨i, hi, rfl⟩ := List.mem_map.mp hp
    exact ⟨by simp [getColumnStrokeWidth, hhc],
           by simp [getColumnColorByIndex, hhc],
           by simp [getColumnStrokeColor, hhc]⟩
  · exact ⟨_, rfl,
      by simp [resolveSettings, getAxisTextFillColor, hhc],
      by simp [resolveSettings, getColumnStrokeColor, hhc]⟩

/-- C2 witness: the high-contrast theorem at a concrete host whose palette
has the flag set. -/
theorem visualTransform_highContrast_forces_palette_witness :
    ∃ vm, visualTransform Nat
        { dataViews := some
            ({ categorical := some { categories := some (catAB :: []), values := some (valCol12 :: []) }
               metadata := metaEmpty } :: []) } hostHC
      = Except.ok vm ∧
      (∀ p ∈ vm.dataPoints,
        p.strokeWidth = 2 ∧
        p.color = hostHC.colorPalette.background ∧
        p.strokeColor = some hostHC.colorPalette.foreground) ∧
      (∃ s, vm.settings = some s ∧
        s.enableAxis.fill = hostHC.colorPalette.foreground ∧
        s.generalView.helpLinkColor = some hostHC.colorPalette.foreground) :=
  visualTransform_highContrast_forces_palette Nat hostHC catAB [] valCol12 [] metaEmpty [] rfl rfl

/-- C3 counterexample: with no host override at all and high-contrast off,
the resolved generalView.helpLinkColor produced by visualTransform is null
(the non-high-contrast stroke color), not the compiled-in default "#80B0E0"
declared in defaultSettings. -/
theorem visualTransform_helpLinkColor_not_default :
    ((visualTransform Nat (mkOptions (some [catAB]) (some [valCol12])) hostStd).toOption.bind
        (fun vm => vm.settings)).map (fun s => s.generalView.helpLinkColor) = some none
    ∧ defaultSettings.generalView.helpLinkColor = some "#80B0E0" := ⟨rfl, rfl⟩

/-- C3 (amended): with no host override for any field and high-contrast off,
every settings field resolved by visualTransform equals its compiled-in
default, except the two helpLinkColor fields (generalView and
testAnalyticsProperty), which are assigned the stroke color and therefore
resolve to null rather than to their compiled-in default "#80B0E0". -/
theorem visualTransform_noOverride_defaults (σ : Type) (host : IVisualHost σ)
    (cat0 : DataViewCategoryColumn) (crest : List DataViewCategoryColumn)
    (v0 : DataViewValueColumn) (vrest : List DataViewValueColumn)
    (md : DataViewMetadata) (dvrest : List DataView)
    (hsrc : cat0.source = true)
    (hobj : ∀ o p, md.objects o p = none)
    (hhc : host.colorPalette.isHighContrast = false) :
    ∃ vm, visualTransform σ
        { dataViews := some
            ({ categorical := some { categories := some (cat0 :: crest), values := some (v0 :: vrest) }
               metadata := md } :: dvrest) } host
      = Except.ok vm ∧
      vm.settings = some
        { defaultSettings with
          generalView := { defaultSettings.generalView with helpLinkColor := none }
          testAnalyticsProperty :=
            { defaultSettings.testAnalyticsProperty with helpLinkColor := none } } := by
  refine ⟨_, visualTransform_ok σ host cat0 crest v0 vrest md dvrest hsrc, ?_⟩
  simp [resolveSettings, getValueBool, getValueNum, getValueStr, getValueEnum, getValueFill,
        getAxisTextFillColor, getColumnStrokeColor, hobj, hhc, defaultSettings]

/-- C3 witness: the no-override theorem at a concrete empty objects map and
the ordinary palette. -/
theorem visualTransform_noOverride_defaults_witness :
    ∃ vm, visualTransform Nat
        { dataViews := some
            ({ categorical := some { categories := some (catAB :: []), values := some (valCol12 :: []) }
               metadata := metaEmpty } :: []) } hostStd
      = Except.ok vm ∧
      vm.settings = some
        { defaultSettings with
          generalView := { defaultSettings.generalView with helpLinkColor := none }
          testAnalyticsProperty :=
            { defaultSettings.testAnalyticsProperty with helpLinkColor := none } } :=
  visualTransform_noOverride_defaults Nat hostStd catAB [] valCol12 [] metaEmpty []
    rfl (fun _ _ => rfl) rfl

/-- C4 counterexample: the value column holds cells [1, 2], whose largest
value is 2, but the host-supplied maxLocal aggregate is 99 and the view model
dataMax copies it, so dataMax is not the largest value across the series. -/
theorem visualTransform_dataMax_not_recomputed :
    (visualTransform Nat (mkOptions (some [catAB]) (some [valCol12])) hostStd).toOption.map
        (fun vm => vm.dataMax) = some (some 99)
    ∧ (visualTransform Nat (mkOptions (some [catAB]) (some [valCol12])) hostStd).toOption.map
        (fun vm => vm.dataPoints.map (fun p => p.value)) = some [some 1, some 2]
    ∧ (99 : ℤ) ≠ 2 := ⟨rfl, rfl, by decide⟩

/-- C4 (amended): for every input that passes the guard with a nonempty
values array, the view model dataMax field equals the host-supplied maxLocal
aggregate of the first value column; it is trusted, not recomputed from the
data-point values. -/
theorem visualTransform_dataMax_eq_maxLocal (σ : Type) (host : IVisualHost σ)
    (cat0 : DataViewCategoryColumn) (crest : List DataViewCategoryColumn)
    (v0 : DataViewValueColumn) (vrest : List DataViewValueColumn)
    (md : DataViewMetadata) (dvrest : List DataView)
    (hsrc : cat0.source = true) :
    ∃ vm, visualTransform σ
        { dataViews := some
            ({ categorical := some { categories := some (cat0 :: crest), values := some (v0 :: vrest) }
               metadata := md } :: dvrest) } host
      = Except.ok vm ∧ vm.dataMax = v0.maxLocal :=
  ⟨_, visualTransform_ok σ host cat0 crest v0 vrest md dvrest hsrc, rfl⟩

/-- C4 witness: the dataMax theorem at the concrete value column whose
maxLocal is 99. -/
theorem visualTransform_dataMax_eq_maxLocal_witness :
    ∃ vm, visualTransform Nat
        { dataViews := some
            ({ categorical := some { categories := some (catAB :: []), values := some (valCol12 :: []) }
               metadata := metaEmpty } :: []) } hostStd
      = Except.ok vm ∧ vm.dataMax = valCol12.maxLocal :=
  visualTransform_dataMax_eq_maxLocal Nat hostStd catAB [] valCol12 [] metaEmpty [] rfl

end BarChartVisual
